import Mathlib

/-!
# Verification of the Belgian National Number validator (src/be/nn.ts)

Shallow embedding of the single-module validator for the Belgian national
number (NN, NISS).  Strings are modelled as `List Char`; JavaScript numbers
that arise here are non-negative integers and are modelled as `Nat`;
millisecond timestamps (which may be negative relative to the Unix epoch)
are modelled as `Int`.  The ambient wall clock `Date.now()` is passed
explicitly as an `Int` parameter `now` (milliseconds since the Unix epoch).

The repository ships only `src/be/nn.ts`; the small string utilities and
the calendar helper it imports from `../util`, and the exception classes
from `../exceptions`, are modelled from the specification and marked as
such in their doc comments.
-/

namespace BeNN

/-- Membership in the regex character class `[0-9]`: code point between
48 and 57. -/
def isDigitChar (c : Char) : Bool :=
  decide (48 ≤ c.toNat) && decide (c.toNat ≤ 57)

/-- Modelled from the spec: `strings.isdigits` from `src/util` (not included
under `src/`).  True exactly when the string is non-empty and consists of
ASCII digits only. -/
def isdigits (s : List Char) : Bool :=
  !s.isEmpty && s.all isDigitChar

/-- Value of a digit character, `c.toNat - '0'.toNat` as in a base-10 parse. -/
def digitVal (c : Char) : Nat :=
  c.toNat - 48

/-- JavaScript `parseInt(s, 10)` restricted to the all-digit strings this
module applies it to: the base-10 value of the digit string. -/
def digitsToNat (s : List Char) : Nat :=
  s.foldl (fun acc c => acc * 10 + digitVal c) 0

/-- Fuel-indexed base-10 rendering of a natural number, mirroring the
JavaScript number-to-string conversion used by template literals. -/
def natToCharsAux : Nat → Nat → List Char
  | 0, _ => []
  | fuel + 1, n =>
      if n < 10 then [Nat.digitChar n]
      else natToCharsAux fuel (n / 10) ++ [Nat.digitChar (n % 10)]

/-- JavaScript stringification of a non-negative integer (as in a template
literal such as the one building a date string from a year). -/
def natToChars (n : Nat) : List Char :=
  natToCharsAux (n + 1) n

/-- JavaScript `String.prototype.split` on the separator character, used to
model both `date.split('-')` and the ISO date parsing of `new Date`. -/
def splitOnDash : List Char → List (List Char)
  | [] => [[]]
  | c :: rest =>
      if c = '-' then [] :: splitOnDash rest
      else
        match splitOnDash rest with
        | [] => [[c]]
        | g :: gs => (c :: g) :: gs

/-! ## Gregorian calendar arithmetic (model of the JavaScript `Date` class) -/

/-- Gregorian leap-year rule. -/
def isLeapYear (y : Nat) : Bool :=
  (y % 4 == 0 && y % 100 != 0) || y % 400 == 0

/-- Month lengths of a non-leap year, January first. -/
def monthLengths : List Nat :=
  [31, 28, 31, 30, 31, 30, 31, 31, 30, 31, 30, 31]

/-- Number of days in month `m` (1-based) of year `y`. -/
def daysInMonth (y m : Nat) : Nat :=
  if m == 2 && isLeapYear y then 29 else monthLengths.getD (m - 1) 0

/-- Days of year `y` that precede the first day of month `m` (1-based). -/
def daysBeforeMonth (y m : Nat) : Nat :=
  (monthLengths.take (m - 1)).sum +
    (if 2 < m && isLeapYear y then 1 else 0)

/-- Day index of the civil date `y-m-d` counted from 0001-01-01 (proleptic
Gregorian), i.e. `civilDays 1 1 1 = 0`. -/
def civilDays (y m d : Nat) : Nat :=
  365 * (y - 1) + (y - 1) / 4 - (y - 1) / 100 + (y - 1) / 400 +
    daysBeforeMonth y m + (d - 1)

/-- Milliseconds in one day, the `ONE_DAY` constant of the source. -/
def ONE_DAY : Int := 86400000

/-- Unix-epoch milliseconds of midnight UTC on the civil date `y-m-d`,
as produced by the JavaScript `Date` for a date-only ISO string. -/
def msOfCivil (y m d : Nat) : Int :=
  ((civilDays y m d : Int) - (civilDays 1970 1 1 : Int)) * ONE_DAY

/-- Millisecond value of `new Date(s)` for the two string shapes this module
builds: a bare year `"yyyy"` (midnight UTC on January 1st of that year) and a
date `"yyyy-mm-dd"` (midnight UTC on that day). -/
def jsDateMs (s : List Char) : Int :=
  match splitOnDash s with
  | [y] => msOfCivil (digitsToNat y) 1 1
  | [y, m, d] => msOfCivil (digitsToNat y) (digitsToNat m) (digitsToNat d)
  | _ => 0

/-- Modelled from the spec: `isValidDateCompactYYYYMMDD` from `src/util` (not
included under `src/`).  An 8-digit string is a calendar-valid date when its
month is 1..12 and its day is within the length of that month, respecting
leap years. -/
def isValidDateCompactYYYYMMDD (s : List Char) : Bool :=
  s.length == 8 && s.all isDigitChar &&
    (let y := digitsToNat (s.take 4)
     let m := digitsToNat ((s.drop 4).take 2)
     let d := digitsToNat (s.drop 6)
     decide (1 ≤ m) && decide (m ≤ 12) && decide (1 ≤ d) &&
       decide (d ≤ daysInMonth y m))

/-! ## Error kinds and result type -/

/-- Modelled from the spec: the error raised by the string-cleaning utility
when the input contains disallowed characters (section 7, CleaningError). -/
inductive CleanError where
  | invalidCharacter
deriving DecidableEq, Repr

/-- Modelled from the spec: the exception classes of `src/exceptions` (not
included under `src/`), reduced to their tags. -/
inductive ErrorKind where
  | InvalidFormat
  | InvalidLength
  | InvalidChecksum
deriving DecidableEq, Repr

/-- The `ValidateReturn` union of the source: success carries the compacted
number and the individual/company flags, failure carries an error kind. -/
inductive ValidateReturn where
  | valid (compact : List Char) (isIndividual : Bool) (isCompany : Bool)
  | invalid (error : ErrorKind)
deriving DecidableEq, Repr

/-! ## The nn.ts module -/

/-- Modelled from the spec: `strings.cleanUnicode` from `src/util` (not
included under `src/`).  It removes the characters of the delete set and,
when the input contains a disallowed (non-ASCII) character, reports a
cleaning error while still producing the stripped value (section 4.1). -/
def cleanUnicode (input : List Char) (deletechars : List Char) :
    List Char × Option CleanError :=
  (input.filter (fun c => !(deletechars.contains c)),
    if input.all (fun c => c.toNat < 128) then none
    else some CleanError.invalidCharacter)

/-- `clean` of the source: strip space, hyphen and period. -/
def clean (input : List Char) : List Char × Option CleanError :=
  cleanUnicode input [' ', '-', '.']

/-- `compact` of the source: return the cleaned value, throwing (modelled as
`Except.error`) the cleaning error when one is reported. -/
def compact (input : List Char) : Except CleanError (List Char) :=
  match clean input with
  | (_, some err) => Except.error err
  | (value, none) => Except.ok value

/-- `format` of the source: return the cleaned value, discarding any
cleaning error. -/
def format (input : List Char) : List Char :=
  (clean input).1

/-- `toDateArray` of the source: `strings.splitAt(number, 2, 4, 6).slice(0, 3)`,
the `(yy, mm, dd)` fields at fixed offsets. -/
def toDateArray (number : List Char) : List Char × List Char × List Char :=
  (number.take 2, (number.drop 2).take 2, (number.drop 4).take 2)

/-- `getFirstSix` of the source: `strings.splitAt(number, 6)[0]`. -/
def getFirstSix (number : List Char) : List Char :=
  number.take 6

/-- `getBaseNumber` of the source: `strings.splitAt(number, 9)[0]`. -/
def getBaseNumber (number : List Char) : List Char :=
  number.take 9

/-- `getChecksum` of the source: `parseInt(strings.splitAt(number, 9)[1], 10)`. -/
def getChecksum (number : List Char) : Nat :=
  digitsToNat (number.drop 9)

/-- `getFullYears` of the source: the two century expansions
`[parseInt('19' + yy), parseInt('20' + yy)]`. -/
def getFullYears (yy : List Char) : List Nat :=
  [digitsToNat ('1' :: '9' :: yy), digitsToNat ('2' :: '0' :: yy)]

/-- `getApproximatelyNow` of the source: the current time plus one day. -/
def getApproximatelyNow (now : Int) : Int :=
  now + ONE_DAY

/-- `isInPast` of the source: `new Date(s) <= getApproximatelyNow()`, on the
stringified date (a bare year or a `yyyy-mm-dd` date). -/
def isInPast (date : List Char) (now : Int) : Bool :=
  decide (jsDateMs date ≤ getApproximatelyNow now)

/-- `isUnknownDob` of the source: `yy` digits, `mm = "00"`, `dd` digits. -/
def isUnknownDob (dob : List Char) : Bool :=
  isdigits (toDateArray dob).1 &&
    decide ((toDateArray dob).2.1 = ['0', '0']) &&
    isdigits (toDateArray dob).2.2

/-- `getValidPastDates` of the source: the century expansions of `yy` that
form a calendar-valid date with `mm`/`dd`, rendered as `yyyy-mm-dd` and kept
only when not in the future. -/
def getValidPastDates (yymmdd : List Char) (now : Int) : List (List Char) :=
  (((getFullYears (toDateArray yymmdd).1).filter
      (fun yyyy => isValidDateCompactYYYYMMDD
        (natToChars yyyy ++ (toDateArray yymmdd).2.1 ++ (toDateArray yymmdd).2.2))).map
    (fun yyyy => natToChars yyyy ++ '-' :: (toDateArray yymmdd).2.1 ++
      '-' :: (toDateArray yymmdd).2.2)).filter
    (fun d => isInPast d now)

/-- `isValidDob` of the source: some valid past date exists. -/
def isValidDob (dob : List Char) (now : Int) : Bool :=
  !(getValidPastDates dob now).isEmpty

/-- `isValidFirstSix` of the source. -/
def isValidFirstSix (firstSix : List Char) (now : Int) : Bool :=
  isUnknownDob firstSix || isValidDob firstSix now

/-- `validStructure` of the source. -/
def validStructure (number : List Char) (now : Int) : Bool :=
  isValidFirstSix (getFirstSix number) now

/-- `toChecksumBasis` of the source: the base number, prefixed with the
digit 2 for years from 2000 on, read as an integer. -/
def toChecksumBasis (year : Nat) (baseNumber : List Char) : Nat :=
  digitsToNat (if year < 2000 then baseNumber else '2' :: baseNumber)

/-- `extractYearFromDate` of the source: `parseInt(date.split('-')[0], 10)`. -/
def extractYearFromDate (date : List Char) : Nat :=
  digitsToNat ((splitOnDash date).headD [])

/-- `getChecksumBasesUnknownDob` of the source: both century expansions of
`yy`, kept when not in the future, each turned into a checksum basis. -/
def getChecksumBasesUnknownDob (dob : List Char) (baseNumber : List Char)
    (now : Int) : List Nat :=
  ((getFullYears (toDateArray dob).1).filter
      (fun year => isInPast (natToChars year) now)).map
    (fun year => toChecksumBasis year baseNumber)

/-- `getChecksumBasesForStandardDob` of the source: the years of the valid
past dates, each turned into a checksum basis. -/
def getChecksumBasesForStandardDob (dob : List Char) (baseNumber : List Char)
    (now : Int) : List Nat :=
  ((getValidPastDates dob now).map extractYearFromDate).map
    (fun year => toChecksumBasis year baseNumber)

/-- `getChecksumBases` of the source: dispatch on the unknown-DOB sentinel. -/
def getChecksumBases (number : List Char) (now : Int) : List Nat :=
  if isUnknownDob (getFirstSix number)
  then getChecksumBasesUnknownDob (getFirstSix number) (getBaseNumber number) now
  else getChecksumBasesForStandardDob (getFirstSix number) (getBaseNumber number) now

/-- `validChecksum` of the source: some candidate basis `csb` satisfies
`csb % 97 + checksum === 97`. -/
def validChecksum (number : List Char) (now : Int) : Bool :=
  (getChecksumBases number now).any
    (fun csb => csb % 97 + getChecksum number == 97)

/-- The body of `validate` after `compact` has produced the cleaned number:
the cascade of guards of the source. -/
def validateCleaned (number : List Char) (now : Int) : ValidateReturn :=
  if isdigits number = false ∨ digitsToNat number ≤ 0 then
    ValidateReturn.invalid ErrorKind.InvalidFormat
  else if number.length ≠ 11 then
    ValidateReturn.invalid ErrorKind.InvalidLength
  else if validStructure number now = false then
    ValidateReturn.invalid ErrorKind.InvalidFormat
  else if validChecksum number now = false then
    ValidateReturn.invalid ErrorKind.InvalidChecksum
  else
    ValidateReturn.valid number true false

/-- `validate` of the source: `compact` first (whose failure propagates
uncaught), then the guard cascade. -/
def validate (input : List Char) (now : Int) :
    Except CleanError ValidateReturn :=
  (compact input).map (fun number => validateCleaned number now)

/-! ## Arithmetic of base-10 parses -/

theorem digitsToNat_foldl_shift (l : List Char) (a : Nat) :
    l.foldl (fun acc c => acc * 10 + digitVal c) a =
      a * 10 ^ l.length + digitsToNat l := by
  induction l generalizing a with
  | nil => simp [digitsToNat]
  | cons c t ih =>
      simp only [List.foldl_cons, List.length_cons, digitsToNat]
      rw [ih (a * 10 + digitVal c), ih (0 * 10 + digitVal c)]
      ring

theorem digitsToNat_cons (c : Char) (l : List Char) :
    digitsToNat (c :: l) = digitVal c * 10 ^ l.length + digitsToNat l := by
  simp only [digitsToNat, List.foldl_cons]
  rw [digitsToNat_foldl_shift l (0 * 10 + digitVal c)]
  ring_nf
  rfl

theorem digitsToNat_append (xs ys : List Char) :
    digitsToNat (xs ++ ys) =
      digitsToNat xs * 10 ^ ys.length + digitsToNat ys := by
  induction xs with
  | nil => simp [digitsToNat]
  | cons c t ih =>
      rw [List.cons_append, digitsToNat_cons, digitsToNat_cons, ih,
        List.length_append]
      ring

theorem digitVal_le_of_isDigit (c : Char) (h : isDigitChar c = true) :
    digitVal c ≤ 9 := by
  simp only [isDigitChar, decide_eq_true_eq, Bool.and_eq_true] at h
  simp only [digitVal]
  omega

theorem digitsToNat_lt (l : List Char)
    (h : l.all isDigitChar = true) :
    digitsToNat l < 10 ^ l.length := by
  induction l with
  | nil => simp [digitsToNat]
  | cons c t ih =>
      simp only [List.all_cons, Bool.and_eq_true] at h
      have hc := digitVal_le_of_isDigit c h.1
      have ht := ih h.2
      rw [digitsToNat_cons, List.length_cons, pow_succ]
      nlinarith

set_option maxRecDepth 4000 in
/-- Round-trip of JavaScript stringification for candidate years: every year
in the range 1900..2099 stringifies to digits, contains no separator, and
parses back to itself. -/
theorem natToChars_roundtrip :
    ∀ v < 200, digitsToNat (natToChars (1900 + v)) = 1900 + v ∧
      (natToChars (1900 + v)).all (fun c => !(c == '-')) = true := by
  decide

theorem splitOnDash_ne_nil (l : List Char) : splitOnDash l ≠ [] := by
  induction l with
  | nil => simp [splitOnDash]
  | cons c t ih =>
      simp only [splitOnDash]
      by_cases hc : c = '-'
      · simp [hc]
      · simp only [if_neg hc]
        rcases h : splitOnDash t with - | ⟨g, gs⟩
        · exact absurd h ih
        · simp

theorem splitOnDash_append_dash (xs rest : List Char)
    (h : ∀ c ∈ xs, ¬(c = '-')) :
    splitOnDash (xs ++ '-' :: rest) = xs :: splitOnDash rest := by
  induction xs with
  | nil => simp [splitOnDash]
  | cons c t ih =>
      have hc : ¬(c = '-') := h c (List.mem_cons_self c t)
      have ht : ∀ x ∈ t, ¬(x = '-') := fun x hx => h x (List.mem_cons_of_mem c hx)
      simp only [List.cons_append, splitOnDash, if_neg hc, List.append_eq, ih ht]

end BeNN

namespace BeNN

/-! ## Claim C2: the century-prefix rule of the checksum basis -/

/-- C2: for every candidate year and 9-digit base number, the checksum basis
is the base number read as an integer when the year is before 2000, and the
base number with the digit 2 prefixed — i.e. 2000000000 plus the base value —
when the year is 2000 or later. -/
theorem claim_C2 (year : Nat) (baseNumber : List Char)
    (h : baseNumber.length = 9) :
    toChecksumBasis year baseNumber =
      if year < 2000 then digitsToNat baseNumber
      else 2000000000 + digitsToNat baseNumber := by
  unfold toChecksumBasis
  by_cases hy : year < 2000
  · simp [hy]
  · simp only [if_neg hy]
    rw [digitsToNat_cons, h]
    have h2 : digitVal '2' = 2 := by decide
    rw [h2]
    norm_num

theorem claim_C2_witness :
    (['8', '5', '0', '3', '1', '5', '1', '2', '3'] : List Char).length = 9 ∧
      toChecksumBasis 2001 ['8', '5', '0', '3', '1', '5', '1', '2', '3'] =
        if (2001 : Nat) < 2000 then
          digitsToNat ['8', '5', '0', '3', '1', '5', '1', '2', '3']
        else 2000000000 + digitsToNat ['8', '5', '0', '3', '1', '5', '1', '2', '3'] :=
  ⟨by decide, claim_C2 2001 ['8', '5', '0', '3', '1', '5', '1', '2', '3'] (by decide)⟩

/-! ## Claim C3: which short inputs get InvalidLength -/

/-- C3 counterexample: a cleaned value of length 3 (hence different from 11)
on which validate reports InvalidFormat, not InvalidLength — the digit and
positivity guard runs before the length guard. -/
theorem claim_C3_counterexample :
    (format ['a', 'b', 'c']).length ≠ 11 ∧
      validate ['a', 'b', 'c'] 0 =
        Except.ok (ValidateReturn.invalid ErrorKind.InvalidFormat) :=
  ⟨by decide, by rfl⟩

/-- C3 amended: for every input that cleans without error and whose cleaned
value is all digits with positive integer value, if the cleaned length is not
11 then validate returns InvalidLength. -/
theorem claim_C3 (input : List Char) (now : Int)
    (hclean : (clean input).2 = none)
    (hd : isdigits (format input) = true)
    (hv : digitsToNat (format input) ≠ 0)
    (hl : (format input).length ≠ 11) :
    validate input now = Except.ok (ValidateReturn.invalid ErrorKind.InvalidLength) := by
  have hcompact : compact input = Except.ok (format input) := by
    unfold compact format
    rcases hc : clean input with ⟨v, err⟩
    rw [hc] at hclean
    simp only at hclean
    subst hclean
    rfl
  unfold validate
  rw [hcompact]
  simp only [Except.map]
  unfold validateCleaned
  rw [if_neg, if_pos hl]
  push_neg
  constructor
  · simp [hd]
  · omega

theorem claim_C3_witness :
    ((clean ['1', '2', '3', '4', '5', '6', '7', '8', '9', '0']).2 = none ∧
      isdigits (format ['1', '2', '3', '4', '5', '6', '7', '8', '9', '0']) = true ∧
      digitsToNat (format ['1', '2', '3', '4', '5', '6', '7', '8', '9', '0']) ≠ 0 ∧
      (format ['1', '2', '3', '4', '5', '6', '7', '8', '9', '0']).length ≠ 11) ∧
      validate ['1', '2', '3', '4', '5', '6', '7', '8', '9', '0'] 0 =
        Except.ok (ValidateReturn.invalid ErrorKind.InvalidLength) :=
  ⟨⟨by decide, by decide, by decide, by decide⟩,
    claim_C3 ['1', '2', '3', '4', '5', '6', '7', '8', '9', '0'] 0
      (by decide) (by decide) (by decide) (by decide)⟩

/-! ## Claim C7: cleaning failures propagate uncaught out of validate -/

/-- C7: validate calls compact without a handler, so whenever cleaning
reports an error, that error propagates out of validate as a thrown error
rather than a tagged invalid result. -/
theorem claim_C7 (input : List Char) (now : Int) (e : CleanError)
    (h : (clean input).2 = some e) :
    validate input now = Except.error e := by
  unfold validate compact
  rcases hc : clean input with ⟨v, err⟩
  rw [hc] at h
  simp only at h
  subst h
  rfl

theorem claim_C7_witness :
    (clean ['é']).2 = some CleanError.invalidCharacter ∧
      validate ['é'] 0 = Except.error CleanError.invalidCharacter :=
  ⟨by decide, claim_C7 ['é'] 0 CleanError.invalidCharacter (by decide)⟩

/-! ## Claim C8: the compact/format asymmetry on cleaning errors -/

/-- C8: when cleaning reports an error, compact throws it while format
discards it and returns the value the cleaning utility produced; when
cleaning reports no error, both return the cleaned value. -/
theorem claim_C8 (input : List Char) :
    (∀ e, (clean input).2 = some e →
      compact input = Except.error e ∧ format input = (clean input).1) ∧
    ((clean input).2 = none →
      compact input = Except.ok ((clean input).1) ∧
        format input = (clean input).1) := by
  constructor
  · intro e he
    refine ⟨?_, rfl⟩
    unfold compact
    rcases hc : clean input with ⟨v, err⟩
    rw [hc] at he
    simp only at he
    subst he
    rfl
  · intro he
    refine ⟨?_, rfl⟩
    unfold compact
    rcases hc : clean input with ⟨v, err⟩
    rw [hc] at he
    simp only at he
    subst he
    rfl

theorem claim_C8_witness :
    ((clean ['é']).2 = some CleanError.invalidCharacter ∧
      compact ['é'] = Except.error CleanError.invalidCharacter ∧
      format ['é'] = (clean ['é']).1) ∧
    ((clean ['a', '-', 'b']).2 = none ∧
      compact ['a', '-', 'b'] = Except.ok ((clean ['a', '-', 'b']).1) ∧
      format ['a', '-', 'b'] = (clean ['a', '-', 'b']).1) := by
  refine ⟨⟨by decide, ?_, ?_⟩, ⟨by decide, ?_, ?_⟩⟩
  · exact ((claim_C8 ['é']).1 CleanError.invalidCharacter (by decide)).1
  · exact ((claim_C8 ['é']).1 CleanError.invalidCharacter (by decide)).2
  · exact ((claim_C8 ['a', '-', 'b']).2 (by decide)).1
  · exact ((claim_C8 ['a', '-', 'b']).2 (by decide)).2

/-! ## Behaviour of the guard cascade once the first three guards pass -/

/-- After the digit, positivity, length and structure guards all pass, the
result of the cascade is decided by `validChecksum` alone. -/
theorem validateCleaned_checksum_stage (number : List Char) (now : Int)
    (h1 : isdigits number = true) (h2 : digitsToNat number ≠ 0)
    (h3 : number.length = 11) (h4 : validStructure number now = true) :
    (validateCleaned number now = ValidateReturn.valid number true false ↔
      validChecksum number now = true) ∧
    (validChecksum number now = false →
      validateCleaned number now = ValidateReturn.invalid ErrorKind.InvalidChecksum) := by
  have hc1 : ¬(isdigits number = false ∨ digitsToNat number ≤ 0) := by
    push_neg
    exact ⟨by simp [h1], by omega⟩
  have hc2 : ¬(number.length ≠ 11) := by simp [h3]
  have hc3 : ¬(validStructure number now = false) := by simp [h4]
  unfold validateCleaned
  rw [if_neg hc1, if_neg hc2, if_neg hc3]
  by_cases hvc : validChecksum number now = true
  · rw [if_neg (by simp [hvc])]
    exact ⟨⟨fun _ => hvc, fun _ => rfl⟩, fun hf => absurd hvc (by simp [hf])⟩
  · have hvf : validChecksum number now = false := by
      revert hvc
      cases validChecksum number now <;> simp
    rw [if_pos hvf]
    refine ⟨⟨fun h => ?_, fun ht => absurd ht (by simp [hvf])⟩, fun _ => rfl⟩
    simp at h

/-! ## Claim C1: acceptance is exactly the modulo-97 relation on some basis -/

/-- C1: for every cleaned 11-digit positive input that passes the structural
check, validate succeeds if and only if some candidate checksum basis `b`
satisfies `b % 97 + checksum = 97`, and when no candidate does, the result is
InvalidChecksum. -/
theorem claim_C1 (number : List Char) (now : Int)
    (h1 : isdigits number = true) (h2 : digitsToNat number ≠ 0)
    (h3 : number.length = 11) (h4 : validStructure number now = true) :
    (validateCleaned number now = ValidateReturn.valid number true false ↔
      ∃ b ∈ getChecksumBases number now, b % 97 + getChecksum number = 97) ∧
    ((∀ b ∈ getChecksumBases number now, b % 97 + getChecksum number ≠ 97) →
      validateCleaned number now = ValidateReturn.invalid ErrorKind.InvalidChecksum) := by
  have hiff : validChecksum number now = true ↔
      ∃ b ∈ getChecksumBases number now, b % 97 + getChecksum number = 97 := by
    simp only [validChecksum, List.any_eq_true, beq_iff_eq]
  obtain ⟨hstage1, hstage2⟩ := validateCleaned_checksum_stage number now h1 h2 h3 h4
  constructor
  · exact hstage1.trans hiff
  · intro hall
    apply hstage2
    rcases hb : validChecksum number now with - | -
    · rfl
    · obtain ⟨b, hmem, he⟩ := hiff.mp hb
      exact absurd he (hall b hmem)

theorem claim_C1_witness :
    (isdigits ("85031512369".toList) = true ∧
      digitsToNat ("85031512369".toList) ≠ 0 ∧
      ("85031512369".toList).length = 11 ∧
      validStructure ("85031512369".toList) (msOfCivil 2026 1 1) = true) ∧
    ((validateCleaned ("85031512369".toList) (msOfCivil 2026 1 1) =
        ValidateReturn.valid ("85031512369".toList) true false ↔
      ∃ b ∈ getChecksumBases ("85031512369".toList) (msOfCivil 2026 1 1),
        b % 97 + getChecksum ("85031512369".toList) = 97) ∧
    ((∀ b ∈ getChecksumBases ("85031512369".toList) (msOfCivil 2026 1 1),
        b % 97 + getChecksum ("85031512369".toList) ≠ 97) →
      validateCleaned ("85031512369".toList) (msOfCivil 2026 1 1) =
        ValidateReturn.invalid ErrorKind.InvalidChecksum)) :=
  ⟨⟨by decide, by decide, by decide, by decide⟩,
    claim_C1 ("85031512369".toList) (msOfCivil 2026 1 1)
      (by decide) (by decide) (by decide) (by decide)⟩

/-! ## Claim C4: the future cutoff comparison -/

/-- C4 counterexample: a date whose timestamp is exactly `now + 1 day` is
accepted by `isInPast` and counted among the valid past dates — the source
compares with `<=`, so the cutoff instant itself is not rejected. -/
theorem claim_C4_counterexample :
    jsDateMs ("2000-01-02".toList) =
      getApproximatelyNow (jsDateMs ("2000-01-01".toList)) ∧
    isInPast ("2000-01-02".toList) (jsDateMs ("2000-01-01".toList)) = true ∧
    ("2000-01-02".toList) ∈
      getValidPastDates ("000102".toList) (jsDateMs ("2000-01-01".toList)) := by
  refine ⟨by decide, by decide, by decide⟩

/-- C4 amended: a date strictly later than `now + 1 day` is treated as future
and rejected; every date at or before that cutoff counts as a valid past
date, and every member of the valid-past-dates list is at or before the
cutoff. -/
theorem claim_C4 :
    (∀ (date : List Char) (now : Int),
      isInPast date now = false ↔ getApproximatelyNow now < jsDateMs date) ∧
    (∀ (yymmdd : List Char) (now : Int) (d : List Char),
      d ∈ getValidPastDates yymmdd now →
        jsDateMs d ≤ getApproximatelyNow now) := by
  constructor
  · intro date now
    simp [isInPast, not_le]
  · intro yymmdd now d hd
    unfold getValidPastDates at hd
    have := (List.mem_filter.mp hd).2
    simpa [isInPast] using this

/-! ## Claim C5: the unknown-DOB sentinel -/

theorem isdigits_of (l : List Char) (h : l.all isDigitChar = true)
    (hl : l ≠ []) : isdigits l = true := by
  cases l with
  | nil => exact absurd rfl hl
  | cons c t => simpa [isdigits] using h

/-- C5: an all-digit 11-character input whose month field is the sentinel
`00` passes the structural check regardless of calendar validity, and its
checksum candidates are built from both century expansions of `yy` that are
not in the future; the checksum guard then decides the result. -/
theorem claim_C5 (number : List Char) (now : Int)
    (h1 : isdigits number = true) (h3 : number.length = 11)
    (hmm : (toDateArray (getFirstSix number)).2.1 = ['0', '0']) :
    isUnknownDob (getFirstSix number) = true ∧
    validStructure number now = true ∧
    getChecksumBases number now =
      ((getFullYears (toDateArray (getFirstSix number)).1).filter
        (fun year => isInPast (natToChars year) now)).map
        (fun year => toChecksumBasis year (getBaseNumber number)) ∧
    (digitsToNat number ≠ 0 →
      (validateCleaned number now = ValidateReturn.valid number true false ↔
        validChecksum number now = true) ∧
      (validChecksum number now = false →
        validateCleaned number now =
          ValidateReturn.invalid ErrorKind.InvalidChecksum)) := by
  have h1' := h1
  simp only [isdigits, Bool.and_eq_true] at h1'
  have hmem : ∀ c ∈ number, isDigitChar c = true := List.all_eq_true.mp h1'.2
  have hyylen : ((number.take 6).take 2).length = 2 := by
    rw [List.length_take, List.length_take, h3]
    decide
  have hddlen : (((number.take 6).drop 4).take 2).length = 2 := by
    rw [List.length_take, List.length_drop, List.length_take, h3]
    decide
  have hyy : isdigits ((number.take 6).take 2) = true := by
    apply isdigits_of
    · exact List.all_eq_true.mpr fun c hc =>
        hmem c (List.take_subset _ _ (List.take_subset _ _ hc))
    · intro heq
      rw [heq] at hyylen
      simp at hyylen
  have hdd : isdigits (((number.take 6).drop 4).take 2) = true := by
    apply isdigits_of
    · exact List.all_eq_true.mpr fun c hc =>
        hmem c (List.take_subset _ _ (List.drop_subset _ _ (List.take_subset _ _ hc)))
    · intro heq
      rw [heq] at hddlen
      simp at hddlen
  have hud : isUnknownDob (getFirstSix number) = true := by
    simp only [isUnknownDob, Bool.and_eq_true, decide_eq_true_eq]
    exact ⟨⟨hyy, hmm⟩, hdd⟩
  refine ⟨hud, ?_, ?_, ?_⟩
  · simp [validStructure, isValidFirstSix, hud]
  · simp [getChecksumBases, hud, getChecksumBasesUnknownDob]
  · intro h0
    exact validateCleaned_checksum_stage number now h1 h0 h3
      (by simp [validStructure, isValidFirstSix, hud])

theorem claim_C5_witness :
    (isdigits ("85001512348".toList) = true ∧
      ("85001512348".toList).length = 11 ∧
      (toDateArray (getFirstSix ("85001512348".toList))).2.1 = ['0', '0']) ∧
    (isUnknownDob (getFirstSix ("85001512348".toList)) = true ∧
      validStructure ("85001512348".toList) (msOfCivil 2026 1 1) = true ∧
      getChecksumBases ("85001512348".toList) (msOfCivil 2026 1 1) =
        ((getFullYears (toDateArray (getFirstSix ("85001512348".toList))).1).filter
          (fun year => isInPast (natToChars year) (msOfCivil 2026 1 1))).map
          (fun year => toChecksumBasis year (getBaseNumber ("85001512348".toList))) ∧
      (digitsToNat ("85001512348".toList) ≠ 0 →
        (validateCleaned ("85001512348".toList) (msOfCivil 2026 1 1) =
            ValidateReturn.valid ("85001512348".toList) true false ↔
          validChecksum ("85001512348".toList) (msOfCivil 2026 1 1) = true) ∧
        (validChecksum ("85001512348".toList) (msOfCivil 2026 1 1) = false →
          validateCleaned ("85001512348".toList) (msOfCivil 2026 1 1) =
            ValidateReturn.invalid ErrorKind.InvalidChecksum))) :=
  ⟨⟨by decide, by decide, by decide⟩,
    claim_C5 ("85001512348".toList) (msOfCivil 2026 1 1)
      (by decide) (by decide) (by decide)⟩

/-! ## Claim C6: calendar-impossible dates are InvalidFormat -/

/-- C6: an all-digit 11-character input that does not match the unknown-DOB
sentinel and whose month/day fields form no calendar-valid date under either
century expansion of `yy` is rejected as InvalidFormat. -/
theorem claim_C6 (number : List Char) (now : Int)
    (h1 : isdigits number = true) (h3 : number.length = 11)
    (hnu : isUnknownDob (getFirstSix number) = false)
    (hbad : ∀ yyyy ∈ getFullYears (toDateArray (getFirstSix number)).1,
      isValidDateCompactYYYYMMDD
        (natToChars yyyy ++ (toDateArray (getFirstSix number)).2.1 ++
          (toDateArray (getFirstSix number)).2.2) = false) :
    validateCleaned number now = ValidateReturn.invalid ErrorKind.InvalidFormat := by
  by_cases h0 : digitsToNat number = 0
  · unfold validateCleaned
    rw [if_pos (Or.inr (by omega))]
  · have hdates : getValidPastDates (getFirstSix number) now = [] := by
      unfold getValidPastDates
      have hfil : (getFullYears (toDateArray (getFirstSix number)).1).filter
          (fun yyyy => isValidDateCompactYYYYMMDD
            (natToChars yyyy ++ (toDateArray (getFirstSix number)).2.1 ++
              (toDateArray (getFirstSix number)).2.2)) = [] := by
        apply List.filter_eq_nil_iff.mpr
        intro a ha
        rw [hbad a ha]
        simp
      rw [hfil]
      rfl
    have hstruct : validStructure number now = false := by
      simp [validStructure, isValidFirstSix, hnu, isValidDob, hdates]
    unfold validateCleaned
    rw [if_neg, if_neg, if_pos hstruct]
    · simp [h3]
    · push_neg
      exact ⟨by simp [h1], by omega⟩

theorem claim_C6_witness :
    (isdigits ("85023012345".toList) = true ∧
      ("85023012345".toList).length = 11 ∧
      isUnknownDob (getFirstSix ("85023012345".toList)) = false ∧
      (∀ yyyy ∈ getFullYears (toDateArray (getFirstSix ("85023012345".toList))).1,
        isValidDateCompactYYYYMMDD
          (natToChars yyyy ++ (toDateArray (getFirstSix ("85023012345".toList))).2.1 ++
            (toDateArray (getFirstSix ("85023012345".toList))).2.2) = false)) ∧
    validateCleaned ("85023012345".toList) (msOfCivil 2026 1 1) =
      ValidateReturn.invalid ErrorKind.InvalidFormat :=
  ⟨⟨by decide, by decide, by decide, by decide⟩,
    claim_C6 ("85023012345".toList) (msOfCivil 2026 1 1)
      (by decide) (by decide) (by decide) (by decide)⟩

theorem claim_C4_witness :
    (isInPast ("2026-05-01".toList) 0 = false ↔
      getApproximatelyNow 0 < jsDateMs ("2026-05-01".toList)) ∧
    ("1985-03-15".toList) ∈
      getValidPastDates ("850315".toList) (msOfCivil 2026 1 1) ∧
    jsDateMs ("1985-03-15".toList) ≤ getApproximatelyNow (msOfCivil 2026 1 1) :=
  ⟨claim_C4.1 ("2026-05-01".toList) 0, by decide,
    claim_C4.2 ("850315".toList) (msOfCivil 2026 1 1) ("1985-03-15".toList)
      (by decide)⟩

/-! ## Claim C9: shape of the success result and the compact round trip -/

/-- A success result of the guard cascade always carries the input number
and the flags `isIndividual = true`, `isCompany = false`. -/
theorem validateCleaned_valid_inv (number : List Char) (now : Int)
    (c : List Char) (i co : Bool)
    (h : validateCleaned number now = ValidateReturn.valid c i co) :
    c = number ∧ i = true ∧ co = false := by
  unfold validateCleaned at h
  by_cases h1 : isdigits number = false ∨ digitsToNat number ≤ 0
  · rw [if_pos h1] at h
    exact absurd h (by simp)
  rw [if_neg h1] at h
  by_cases h2 : number.length ≠ 11
  · rw [if_pos h2] at h
    exact absurd h (by simp)
  rw [if_neg h2] at h
  by_cases h3 : validStructure number now = false
  · rw [if_pos h3] at h
    exact absurd h (by simp)
  rw [if_neg h3] at h
  by_cases h4 : validChecksum number now = false
  · rw [if_pos h4] at h
    exact absurd h (by simp)
  rw [if_neg h4] at h
  injection h with ha hb hco
  exact ⟨ha.symm, hb.symm, hco.symm⟩

/-- A successful `compact` returns exactly the cleaned value, and cleaning
reported no error. -/
theorem compact_ok_inv (x n : List Char) (h : compact x = Except.ok n) :
    clean x = (n, none) := by
  rcases hc : clean x with ⟨v, e⟩
  unfold compact at h
  rw [hc] at h
  cases e with
  | none =>
      simp only [Except.ok.injEq] at h
      rw [h]
  | some e' => simp at h

/-- Cleaning an already-cleaned value changes nothing and reports no
error. -/
theorem clean_of_cleaned (x : List Char) (h : (clean x).2 = none) :
    clean ((clean x).1) = ((clean x).1, none) := by
  unfold clean cleanUnicode at h ⊢
  simp only at h ⊢
  by_cases hq : x.all (fun c => decide (c.toNat < 128)) = true
  · refine Prod.ext_iff.mpr ⟨?_, ?_⟩
    · exact List.filter_eq_self.mpr fun a ha => (List.mem_filter.mp ha).2
    · show (if _ = true then _ else _) = none
      rw [if_pos]
      exact List.all_eq_true.mpr fun a ha =>
        List.all_eq_true.mp hq a (List.mem_filter.mp ha).1
  · rw [if_neg hq] at h
    simp at h

/-- C9: whenever validate succeeds, the `compact` field of the success
result is exactly `compact` of the input, the flags are
`isIndividual = true` and `isCompany = false`, and re-validating that
compact value succeeds with the same result. -/
theorem claim_C9 (x : List Char) (now : Int) (c : List Char) (i co : Bool)
    (h : validate x now = Except.ok (ValidateReturn.valid c i co)) :
    compact x = Except.ok c ∧ i = true ∧ co = false ∧
      validate c now = Except.ok (ValidateReturn.valid c true false) := by
  have hvc : ∃ n, compact x = Except.ok n ∧
      validateCleaned n now = ValidateReturn.valid c i co := by
    unfold validate at h
    cases hcomp : compact x with
    | error e =>
        rw [hcomp] at h
        simp [Except.map] at h
    | ok n =>
        rw [hcomp] at h
        simp only [Except.map, Except.ok.injEq] at h
        exact ⟨n, rfl, h⟩
  obtain ⟨n, hc, hval⟩ := hvc
  obtain ⟨hcn, hi, hco⟩ := validateCleaned_valid_inv n now c i co hval
  subst hcn
  subst hi
  subst hco
  have hcleanx : clean x = (c, none) := compact_ok_inv x c hc
  have hidem : clean c = (c, none) := by
    have h2 : (clean x).2 = none := by rw [hcleanx]
    have h3 := clean_of_cleaned x h2
    rw [hcleanx] at h3
    simpa using h3
  have hcompact_c : compact c = Except.ok c := by
    unfold compact
    rw [hidem]
  refine ⟨hc, rfl, rfl, ?_⟩
  unfold validate
  rw [hcompact_c]
  simp only [Except.map, Except.ok.injEq]
  exact hval

/-! ## Claim C10: at most two candidate bases, from exactly two years -/

/-- Stringification of a candidate year in 1900..2099 parses back to the
year and contains no date separator. -/
theorem natToChars_year (y : Nat) (h19 : 1900 ≤ y) (h21 : y < 2100) :
    digitsToNat (natToChars y) = y ∧ ∀ c ∈ natToChars y, ¬(c = '-') := by
  obtain ⟨w, rfl⟩ : ∃ w, y = 1900 + w := ⟨y - 1900, by omega⟩
  have hw := natToChars_roundtrip w (by omega)
  refine ⟨hw.1, ?_⟩
  intro c hc hcd
  have hall := List.all_eq_true.mp hw.2 c hc
  rw [hcd] at hall
  simp at hall

/-- The year extracted back from a rendered `yyyy-mm-dd` date is the year
that was rendered into it. -/
theorem extractYear_mkDate (yyyy : Nat) (mm dd : List Char)
    (hnd : ∀ c ∈ natToChars yyyy, ¬(c = '-'))
    (hrt : digitsToNat (natToChars yyyy) = yyyy) :
    extractYearFromDate (natToChars yyyy ++ '-' :: mm ++ '-' :: dd) = yyyy := by
  have hshape : natToChars yyyy ++ '-' :: mm ++ '-' :: dd =
      natToChars yyyy ++ '-' :: (mm ++ '-' :: dd) := by
    simp [List.append_assoc]
  rw [hshape]
  unfold extractYearFromDate
  rw [splitOnDash_append_dash _ _ hnd]
  simpa using hrt

/-- C10: for every 11-digit input, the candidate checksum basis list has at
most two elements; every basis comes from one of the two century expansions
of `yy`, and those expansions are exactly `1900 + yy` and `2000 + yy`. -/
theorem claim_C10 (number : List Char) (now : Int)
    (h1 : isdigits number = true) (h3 : number.length = 11) :
    (getChecksumBases number now).length ≤ 2 ∧
    (∀ b ∈ getChecksumBases number now,
      ∃ y ∈ getFullYears (toDateArray (getFirstSix number)).1,
        b = toChecksumBasis y (getBaseNumber number)) ∧
    getFullYears (toDateArray (getFirstSix number)).1 =
      [1900 + digitsToNat (toDateArray (getFirstSix number)).1,
       2000 + digitsToNat (toDateArray (getFirstSix number)).1] := by
  have h1' := h1
  simp only [isdigits, Bool.and_eq_true] at h1'
  have hmem : ∀ c ∈ number, isDigitChar c = true := List.all_eq_true.mp h1'.2
  have hyylen : ((number.take 6).take 2).length = 2 := by
    rw [List.length_take, List.length_take, h3]
    decide
  have hyyall : ((number.take 6).take 2).all isDigitChar = true :=
    List.all_eq_true.mpr fun c hc =>
      hmem c (List.take_subset _ _ (List.take_subset _ _ hc))
  have hv : digitsToNat ((number.take 6).take 2) < 100 := by
    have := digitsToNat_lt _ hyyall
    rw [hyylen] at this
    simpa using this
  have hfy : getFullYears (toDateArray (getFirstSix number)).1 =
      [1900 + digitsToNat (toDateArray (getFirstSix number)).1,
       2000 + digitsToNat (toDateArray (getFirstSix number)).1] := by
    have h19v : digitsToNat ['1', '9'] = 19 := by decide
    have h20v : digitsToNat ['2', '0'] = 20 := by decide
    show [digitsToNat (['1', '9'] ++ (number.take 6).take 2),
          digitsToNat (['2', '0'] ++ (number.take 6).take 2)] =
      [1900 + digitsToNat ((number.take 6).take 2),
       2000 + digitsToNat ((number.take 6).take 2)]
    rw [digitsToNat_append, digitsToNat_append, hyylen, h19v, h20v]
    norm_num
  refine ⟨?_, ?_, hfy⟩
  · unfold getChecksumBases
    by_cases hud : isUnknownDob (getFirstSix number) = true
    · rw [if_pos hud]
      unfold getChecksumBasesUnknownDob
      rw [List.length_map]
      exact le_trans (List.length_filter_le _ _) (le_of_eq rfl)
    · rw [if_neg hud]
      unfold getChecksumBasesForStandardDob getValidPastDates
      rw [List.length_map, List.length_map]
      refine le_trans (List.length_filter_le _ _) ?_
      rw [List.length_map]
      exact le_trans (List.length_filter_le _ _) (le_of_eq rfl)
  · intro b hb
    unfold getChecksumBases at hb
    by_cases hud : isUnknownDob (getFirstSix number) = true
    · rw [if_pos hud] at hb
      unfold getChecksumBasesUnknownDob at hb
      obtain ⟨y, hy, rfl⟩ := List.mem_map.mp hb
      exact ⟨y, List.mem_of_mem_filter hy, rfl⟩
    · rw [if_neg hud] at hb
      unfold getChecksumBasesForStandardDob at hb
      obtain ⟨y, hy, rfl⟩ := List.mem_map.mp hb
      obtain ⟨d, hd, rfl⟩ := List.mem_map.mp hy
      unfold getValidPastDates at hd
      have hd' := List.mem_of_mem_filter hd
      obtain ⟨yyyy, hyyyy', rfl⟩ := List.mem_map.mp hd'
      have hyyyy : yyyy ∈ getFullYears (toDateArray (getFirstSix number)).1 :=
        List.mem_of_mem_filter hyyyy'
      have hbounds : 1900 ≤ yyyy ∧ yyyy < 2100 := by
        rw [hfy] at hyyyy
        have hv' : digitsToNat (toDateArray (getFirstSix number)).1 < 100 := hv
        rcases List.mem_cons.mp hyyyy with h | h
        · omega
        · rcases List.mem_singleton.mp h with h
          omega
      obtain ⟨hrt, hnd⟩ := natToChars_year yyyy hbounds.1 hbounds.2
      refine ⟨yyyy, hyyyy, ?_⟩
      rw [extractYear_mkDate yyyy _ _ hnd hrt]

theorem claim_C10_witness :
    (isdigits ("85031512369".toList) = true ∧
      ("85031512369".toList).length = 11) ∧
    ((getChecksumBases ("85031512369".toList) (msOfCivil 2026 1 1)).length ≤ 2 ∧
      (∀ b ∈ getChecksumBases ("85031512369".toList) (msOfCivil 2026 1 1),
        ∃ y ∈ getFullYears (toDateArray (getFirstSix ("85031512369".toList))).1,
          b = toChecksumBasis y (getBaseNumber ("85031512369".toList))) ∧
      getFullYears (toDateArray (getFirstSix ("85031512369".toList))).1 =
        [1900 + digitsToNat (toDateArray (getFirstSix ("85031512369".toList))).1,
         2000 + digitsToNat (toDateArray (getFirstSix ("85031512369".toList))).1]) :=
  ⟨⟨by decide, by decide⟩,
    claim_C10 ("85031512369".toList) (msOfCivil 2026 1 1) (by decide) (by decide)⟩

theorem claim_C9_witness :
    validate ("85.03.15-123.69".toList) (msOfCivil 2026 1 1) =
      Except.ok (ValidateReturn.valid ("85031512369".toList) true false) ∧
    (compact ("85.03.15-123.69".toList) = Except.ok ("85031512369".toList) ∧
      true = true ∧ false = false ∧
      validate ("85031512369".toList) (msOfCivil 2026 1 1) =
        Except.ok (ValidateReturn.valid ("85031512369".toList) true false)) :=
  ⟨by rfl,
    claim_C9 ("85.03.15-123.69".toList) (msOfCivil 2026 1 1)
      ("85031512369".toList) true false (by rfl)⟩

end BeNN
